import Mathlib

/-!
Verification of the Agent Oversight Engine (kill switch, auto-restart
controller, escalation ladder, maintenance-window gate) against its
natural-language specification.

The Python modules `backend/services/kill_switch.py`,
`backend/services/auto_restart.py` and `backend/services/sentinel.py` are
shallowly embedded below.  External effects (the SQLite store, the SSH
remote-execution gateway, the CEO e-mail notification channel) are made
explicit: database tables become association lists / lists of records
passed in and returned, and each remote command result is an oracle
parameter `(success, output)` standing for `_ssh_command`'s return value.
Every executed stop/start/restart command and every notification is
collected in the returned outcome so that "no command was executed" is a
provable statement.
-/

namespace Oversight

/-- Association-list lookup mirroring Python `dict.get` /
`SELECT ... WHERE agent_id = ? ... fetchone()` (first matching entry). -/
def lookup (m : List (String × String)) (k : String) : Option String :=
  (m.find? (fun p => p.1 = k)).map (fun p => p.2)

/-- `AGENT_HOSTS` from kill_switch.py / auto_restart.py (identical dicts). -/
def AGENT_HOSTS : List (String × String) :=
  [("david-bishop", "agents@192.168.65.241"),
   ("apex", "agents@192.168.65.241"),
   ("aegis", "agents@192.168.65.241"),
   ("cortex", "talosadmin@192.168.65.237")]

/-- `AGENT_SERVICES` from kill_switch.py / auto_restart.py. -/
def AGENT_SERVICES : List (String × String) :=
  [("david-bishop", "openclaw-gateway"),
   ("apex", "apex"),
   ("aegis", "aegis"),
   ("cortex", "cortex")]

/-- `PROTECTED_AGENTS` from kill_switch.py. -/
def PROTECTED_AGENTS : List String := ["david-bishop", "sentinel"]

/-- The JSON context stored with a kill incident
(`json.dumps({"reason": ..., "output": output[:500], "host": ..., "service": ...})`). -/
structure IncidentContext where
  reason : String
  output : String
  host : String
  service : String
deriving DecidableEq, Repr

/-- A row of the `incidents` table (kill_switch.py `init_tables`).
`resolved_by` is NULL (`none`) until `resume_agent` resolves the incident. -/
structure Incident where
  agent_id : String
  incident_type : String
  reason : String
  triggered_by : String
  status : String
  context : IncidentContext
  resolved_by : Option String
deriving DecidableEq, Repr

/-- Result of `kill_agent` together with all external effects it performed.
`executedCmds` records every systemctl stop command sent through
`_ssh_command` (as `(host, command)`); `notifications` records every
`_send_ceo_alert(subject, body)` call; `agents` and `incidents` are the
table states after the call. -/
structure KillOutcome where
  success : Bool
  error : Option String
  output : Option String
  executedCmds : List (String × String)
  agents : List (String × String)
  incidents : List Incident
  notifications : List (String × String)
deriving DecidableEq, Repr

/-- `UPDATE agents SET status = ? WHERE agent_id = ?`:
every row whose key matches gets the new status; no row is inserted. -/
def updateStatus (agents : List (String × String)) (id st : String) :
    List (String × String) :=
  agents.map (fun p => if p.1 = id then (p.1, st) else p)

/-- The stop command built by `kill_agent`: david-bishop runs a user
service, everything else uses sudo. -/
def stopCmd (agent_id service : String) : String :=
  if agent_id = "david-bishop" then "systemctl --user stop " ++ service
  else "sudo systemctl stop " ++ service

/-- Shallow embedding of `kill_agent(agent_id, reason, triggered_by)`
(kill_switch.py lines 87-163).  `agents` and `incidents` are the current
table contents; `stopRes` is the `(success, output)` pair `_ssh_command`
returns for the stop command. -/
def kill_agent (agent_id reason triggered_by : String)
    (agents : List (String × String)) (incidents : List Incident)
    (stopRes : Bool × String) : KillOutcome :=
  -- Safety check: Never kill self
  if agent_id = "sentinel" then
    { success := false, error := some "SAFETY: Sentinel cannot kill itself",
      output := none, executedCmds := [], agents := agents,
      incidents := incidents, notifications := [] }
  -- Safety check: Protected agents require CEO approval
  else if agent_id ∈ PROTECTED_AGENTS ∧ triggered_by = "auto" then
    { success := false,
      error := some ("SAFETY: " ++ agent_id ++ " is protected - requires CEO pre-approval"),
      output := none, executedCmds := [], agents := agents,
      incidents := incidents,
      notifications :=
        [("[SENTINEL] Kill Request Blocked: " ++ agent_id,
          "Auto-kill of " ++ agent_id ++ " was blocked.\nReason: " ++ reason ++
          "\n\nCEO approval required.")] }
  else
    match lookup AGENT_HOSTS agent_id, lookup AGENT_SERVICES agent_id with
    | some host, some service =>
      let success := stopRes.1
      let output := stopRes.2
      { success := success,
        error := none,
        output := some (output.take 200),
        executedCmds := [(host, stopCmd agent_id service)],
        agents := updateStatus agents agent_id "killed",
        incidents := incidents ++
          [{ agent_id := agent_id, incident_type := "kill", reason := reason,
             triggered_by := triggered_by, status := "active",
             context := { reason := reason, output := output.take 500,
                          host := host, service := service },
             resolved_by := none }],
        notifications :=
          [("[SENTINEL] Agent Killed: " ++ agent_id,
            "Agent " ++ agent_id ++ " has been killed.\nReason: " ++ reason ++
            "\nTriggered by: " ++ triggered_by ++
            "\n\nUse POST /api/kill-switch/" ++ agent_id ++ "/resume to restart.")] }
    | _, _ =>
      { success := false, error := some ("Unknown agent: " ++ agent_id),
        output := none, executedCmds := [], agents := agents,
        incidents := incidents, notifications := [] }

/-- Result of `resume_agent` together with its external effects. -/
structure ResumeOutcome where
  success : Bool
  error : Option String
  executedCmds : List (String × String)
  agents : List (String × String)
  incidents : List Incident
deriving DecidableEq, Repr

/-- The start command built by `resume_agent`. -/
def startCmd (agent_id service : String) : String :=
  if agent_id = "david-bishop" then "systemctl --user start " ++ service
  else "sudo systemctl start " ++ service

/-- The `UPDATE incidents SET status = 'resolved', resolved_by = ? WHERE
agent_id = ? AND status = 'active' AND incident_type = 'kill'` statement of
`resume_agent`: every active kill incident of the agent is resolved. -/
def resolveKillIncidents (incidents : List Incident)
    (agent_id approved_by : String) : List Incident :=
  incidents.map (fun i =>
    if i.agent_id = agent_id ∧ i.status = "active" ∧ i.incident_type = "kill"
    then { i with status := "resolved", resolved_by := some approved_by }
    else i)

/-- Shallow embedding of `resume_agent(agent_id, approved_by)`
(kill_switch.py lines 166-221).  `startRes` is the `(success, output)` pair
`_ssh_command` returns for the start command. -/
def resume_agent (agent_id approved_by : String)
    (agents : List (String × String)) (incidents : List Incident)
    (startRes : Bool × String) : ResumeOutcome :=
  match lookup agents agent_id with
  | none =>
    { success := false, error := some ("Agent not found: " ++ agent_id),
      executedCmds := [], agents := agents, incidents := incidents }
  | some st =>
    -- Check if agent is actually killed
    if st ≠ "killed" then
      { success := false,
        error := some ("Agent " ++ agent_id ++ " is not in killed state (current: " ++ st ++ ")"),
        executedCmds := [], agents := agents, incidents := incidents }
    else
      match lookup AGENT_HOSTS agent_id, lookup AGENT_SERVICES agent_id with
      | some host, some service =>
        if startRes.1 then
          { success := true, error := none,
            executedCmds := [(host, startCmd agent_id service)],
            agents := updateStatus agents agent_id "healthy",
            incidents := resolveKillIncidents incidents agent_id approved_by }
        else
          { success := false, error := some (startRes.2.take 200),
            executedCmds := [(host, startCmd agent_id service)],
            agents := agents, incidents := incidents }
      | _, _ =>
        { success := false, error := some ("Unknown agent: " ++ agent_id),
          executedCmds := [], agents := agents, incidents := incidents }

/-! Shallow embedding of auto_restart.py.  The same `AGENT_HOSTS` /
`AGENT_SERVICES` dicts appear verbatim in that module. -/

/-- `MISSED_HEARTBEATS_THRESHOLD` from auto_restart.py. -/
def MISSED_HEARTBEATS_THRESHOLD : Nat := 3

/-- `MAX_RESTARTS_PER_HOUR` from auto_restart.py. -/
def MAX_RESTARTS_PER_HOUR : Nat := 3

/-- `MAINTENANCE_START_HOUR` from auto_restart.py (03:00 UTC). -/
def MAINTENANCE_START_HOUR : Nat := 3

/-- `MAINTENANCE_END_HOUR` from auto_restart.py (04:00 UTC). -/
def MAINTENANCE_END_HOUR : Nat := 4

/-- `is_maintenance_window()` from auto_restart.py: a pure function of the
current UTC hour, `MAINTENANCE_START_HOUR <= now.hour < MAINTENANCE_END_HOUR`.
Note it consults only these hard-coded constants, not the configured
`maintenance_windows` table of sentinel.py. -/
def is_maintenance_window (nowHour : Nat) : Bool :=
  decide (MAINTENANCE_START_HOUR ≤ nowHour ∧ nowHour < MAINTENANCE_END_HOUR)

/-- The scanning loop of `_get_missed_heartbeat_count`: count consecutive
non-"healthy" statuses from the most recent entry, stopping (`break`) at
the first "healthy" one. -/
def countConsecMissed : List String → Nat
  | [] => 0
  | s :: rest => if s ≠ "healthy" then countConsecMissed rest + 1 else 0

/-- Shallow embedding of `_get_missed_heartbeat_count(agent_id)`
(auto_restart.py lines 134-154).  `heartbeats` is the agent's heartbeat
status history, newest first; the query takes the most recent 5
(`ORDER BY timestamp DESC LIMIT 5`), an empty result returns 5. -/
def _get_missed_heartbeat_count (heartbeats : List String) : Nat :=
  let rows := heartbeats.take 5
  if rows.isEmpty then 5
  else countConsecMissed rows

/-- A row of the `restart_log` table written by `check_and_restart`. -/
structure RestartLogEntry where
  agent_id : String
  success : Bool
  method : String
  notes : String
deriving DecidableEq, Repr

/-- The external state and oracle inputs of one `check_and_restart` call:
the `agents` and `incidents` tables, the agent's heartbeat statuses
(newest first), the current UTC hour, and the results the external
collaborators would return (`verify_process_alive`, `get_restart_count`,
the restart command, `check_health_endpoint`). -/
structure RestartEnv where
  agents : List (String × String)
  incidents : List Incident
  heartbeats : List String
  nowHour : Nat
  processAlive : Bool
  restartCount : Nat
  restartRes : Bool × String
  healthOk : Bool
deriving DecidableEq, Repr

/-- Result of `check_and_restart` together with all external effects:
every restart command sent through `_ssh_command`, every `restart_log`
row inserted, every `_send_ceo_alert` notification, and the resulting
`agents` and `incidents` tables. -/
structure RestartOutcome where
  action : String
  success : Bool
  error : Option String
  skipped : Option String
  missed_heartbeats : Option Nat
  recent_restarts : Option Nat
  health_check : Option String
  executedCmds : List (String × String)
  restartLog : List RestartLogEntry
  agents : List (String × String)
  incidents : List Incident
  notifications : List (String × String)
deriving DecidableEq, Repr

/-- Python f-strings render a `None` lookup result as the text "None". -/
def optStr : Option String → String
  | some s => s
  | none => "None"

/-- The restart command built by `check_and_restart`. -/
def restartCmd (agent_id : String) (service : Option String) : String :=
  if agent_id = "david-bishop" then "systemctl --user restart " ++ optStr service
  else "sudo systemctl restart " ++ optStr service

/-- Shallow embedding of `check_and_restart(agent_id)` (auto_restart.py
lines 157-278).  The gates run in source order: agent exists, not killed,
not in the hard-coded maintenance window, ≥ 3 missed heartbeats, process
confirmed dead, restart rate below the hourly cap; then the restart is
executed, logged, and verified.  auto_restart.py never writes to the
`incidents` table, so `incidents` is always passed through unchanged. -/
def check_and_restart (agent_id : String) (env : RestartEnv) : RestartOutcome :=
  let base : RestartOutcome :=
    { action := "none", success := false, error := none, skipped := none,
      missed_heartbeats := none, recent_restarts := none, health_check := none,
      executedCmds := [], restartLog := [], agents := env.agents,
      incidents := env.incidents, notifications := [] }
  -- Check 1: Get agent status
  match lookup env.agents agent_id with
  | none => { base with error := some ("Agent not found: " ++ agent_id) }
  | some st =>
    -- Check 2: Skip if killed (requires CEO approval)
    if st = "killed" then
      { base with skipped := some "Agent in killed state - CEO approval required" }
    -- Check 3: Skip if in maintenance window
    else if is_maintenance_window env.nowHour then
      { base with skipped := some "Maintenance window active" }
    else
      -- Check 4: Get missed heartbeat count
      let missed := _get_missed_heartbeat_count env.heartbeats
      if missed < MISSED_HEARTBEATS_THRESHOLD then
        { base with missed_heartbeats := some missed,
                    skipped := some ("Only " ++ toString missed ++
                      " missed heartbeats (threshold: " ++
                      toString MISSED_HEARTBEATS_THRESHOLD ++ ")") }
      -- Check 5: Verify process is actually dead
      else if env.processAlive then
        { base with missed_heartbeats := some missed,
                    skipped := some "Process is still running" }
      -- Check 6: Rate limit restarts
      else if env.restartCount ≥ MAX_RESTARTS_PER_HOUR then
        { base with action := "blocked",
                    missed_heartbeats := some missed,
                    recent_restarts := some env.restartCount,
                    error := some ("Max restarts (" ++ toString MAX_RESTARTS_PER_HOUR ++
                      ") reached in last hour"),
                    notifications :=
                      [("[SENTINEL] Restart Limit: " ++ agent_id,
                        "Agent " ++ agent_id ++ " has been restarted " ++
                        toString env.restartCount ++
                        " times in the last hour.\nManual intervention required.")] }
      else
        -- All checks passed - attempt restart
        let host := lookup AGENT_HOSTS agent_id
        let service := lookup AGENT_SERVICES agent_id
        let cmd := restartCmd agent_id service
        let succ := env.restartRes.1
        let output := env.restartRes.2
        let logEntry : RestartLogEntry :=
          { agent_id := agent_id, success := succ, method := "systemctl",
            notes := output.take 200 }
        if succ then
          if env.healthOk then
            { base with action := "restart", success := true,
                        missed_heartbeats := some missed,
                        recent_restarts := some env.restartCount,
                        health_check := some "passed",
                        executedCmds := [(optStr host, cmd)],
                        restartLog := [logEntry],
                        agents := updateStatus env.agents agent_id "healthy" }
          else
            { base with action := "restart", success := false,
                        missed_heartbeats := some missed,
                        recent_restarts := some env.restartCount,
                        health_check := some "failed",
                        executedCmds := [(optStr host, cmd)],
                        restartLog := [logEntry],
                        agents := updateStatus env.agents agent_id "failed",
                        notifications :=
                          [("[SENTINEL] Restart Failed: " ++ agent_id,
                            "Agent " ++ agent_id ++
                            " was restarted but health check failed.\nManual intervention required.")] }
        else
          { base with action := "restart", success := false,
                      missed_heartbeats := some missed,
                      recent_restarts := some env.restartCount,
                      error := some (output.take 200),
                      executedCmds := [(optStr host, cmd)],
                      restartLog := [logEntry],
                      notifications :=
                        [("[SENTINEL] Restart Error: " ++ agent_id,
                          "Failed to restart " ++ agent_id ++ ".\nError: " ++ output.take 200)] }

end Oversight

namespace Sentinel

/-! Shallow embedding of sentinel.py: the configured maintenance-window
predicate and the escalation-ladder table operations. -/

/-- A row of the `maintenance_windows` table: start time "HH:MM" (UTC),
duration in minutes, applicable weekday abbreviations (lowercase), and the
active flag. -/
structure MaintenanceWindow where
  start_time : String
  duration_minutes : Nat
  days_of_week : List String
  active : Bool
deriving DecidableEq, Repr

/-- The components of `datetime.utcnow()` that `is_maintenance_active`
consults: `strftime('%a').lower()` and the current UTC hour and minute. -/
structure UtcNow where
  dayAbbr : String
  hour : Nat
  minute : Nat
deriving DecidableEq, Repr

/-- Split a character list at the first ':' (the `split(':')` of
`is_maintenance_active`, which uses fields 0 and 1 of a "HH:MM" string). -/
def splitColon : List Char → List Char × List Char
  | [] => ([], [])
  | c :: rest =>
    if c = ':' then ([], rest)
    else
      let p := splitColon rest
      (c :: p.1, p.2)

/-- Decimal digits to a number (`int(...)`; malformed input, on which
Python would raise, does not occur in any claim considered here). -/
def digitsToNat (cs : List Char) : Nat :=
  cs.foldl (fun n c => n * 10 + (c.toNat - '0'.toNat)) 0

/-- Parse "HH:MM" into (hour, minute), as
`int(start_parts[0]), int(start_parts[1])`. -/
def parseHM (s : String) : Nat × Nat :=
  let p := splitColon s.toList
  (digitsToNat p.1, digitsToNat p.2)

/-- Comparison of two `datetime.time(hour, minute)` values: Python compares
time objects lexicographically. -/
def timeLeHM (a b : Nat × Nat) : Bool :=
  decide (a.1 < b.1 ∨ (a.1 = b.1 ∧ a.2 ≤ b.2))

/-- Shallow embedding of `is_maintenance_active()` (sentinel.py lines
51-68), with the single active window row and the current UTC time as
explicit inputs.  The window end is computed exactly as in the source:
`end_hour = (start_hour + duration // 60) % 24` and
`end_min = (start_min + duration % 60) % 60` — note the minute sum does
not carry into the hour. -/
def is_maintenance_active (window : Option MaintenanceWindow) (now : UtcNow) :
    Bool :=
  match window with
  | none => false
  | some w =>
    if !w.active then false
    else if !(w.days_of_week.contains now.dayAbbr) then false
    else
      let s := parseHM w.start_time
      let endHour := (s.1 + w.duration_minutes / 60) % 24
      let endMin := (s.2 + w.duration_minutes % 60) % 60
      let e := (endHour, endMin)
      let cur := (now.hour, now.minute)
      if timeLeHM s e then timeLeHM s cur && timeLeHM cur e
      else timeLeHM s cur || timeLeHM cur e

/-- Minutes since midnight. -/
def minutesOfDay (h m : Nat) : Nat := h * 60 + m

/-- The maintenance-window predicate as the specification words it, for
comparison with the source's `is_maintenance_active`: "now" is inside the
window exactly when the time elapsed since the window's start (wrapping at
midnight) is less than the duration, on an applicable weekday of an active
window. -/
def inWindowSpecModel (w : MaintenanceWindow) (now : UtcNow) : Bool :=
  w.active && w.days_of_week.contains now.dayAbbr &&
    decide ((minutesOfDay now.hour now.minute + 1440 -
        minutesOfDay (parseHM w.start_time).1 (parseHM w.start_time).2) % 1440
      < w.duration_minutes)

/-- The columns of the `agent_escalations` table
(`init_escalation_tables` in sentinel.py). -/
def agentEscalationsColumns : List String :=
  ["id", "agent_id", "level", "reason", "created_at", "resolved_at", "resolved_by"]

/-- SQLite resolves a bare identifier appearing in a statement's
expressions as a column name; an identifier that is not a column of the
table makes the statement fail at prepare time ("no such column"),
before any row is read or written. -/
def resolveColumn (c : String) : Except String Unit :=
  if agentEscalationsColumns.contains c then Except.ok ()
  else Except.error ("no such column: " ++ c)

/-- A row of the `agent_escalations` table.  `resolved_at` is NULL
(`none`) while the escalation is unresolved. -/
structure EscRow where
  agent_id : String
  level : Nat
  reason : String
  resolved_at : Option String
  resolved_by : Option String
deriving DecidableEq, Repr

/-- Shallow embedding of `escalate_agent(agent_id, level, reason)`
(sentinel.py lines 126-141).  Its first statement is
`UPDATE agent_escalations SET resolved_at = datetime(now),
resolved_by = system-auto WHERE agent_id = ? AND resolved_at IS NULL`:
the source is missing the quotes around `'now'` and `'system-auto'`, so
`now`, `system` and `auto` are bare identifiers that SQLite resolves as
columns of `agent_escalations` at prepare time.  The continuation after
the column resolution is the intended resolve-all-then-insert-one
semantics. -/
def escalate_agent (agent_id : String) (level : Nat) (reason : String)
    (table : List EscRow) : Except String (List EscRow) := do
  resolveColumn "now"
  resolveColumn "system"
  resolveColumn "auto"
  let resolved := table.map (fun r =>
    if r.agent_id = agent_id ∧ r.resolved_at = none
    then { r with resolved_at := some "now", resolved_by := some "system-auto" }
    else r)
  pure (resolved ++
    [{ agent_id := agent_id, level := level, reason := reason,
       resolved_at := none, resolved_by := none }])

/-- Shallow embedding of `resolve_escalation(agent_id, resolved_by)`
(sentinel.py lines 143-153).  Its UPDATE statement has the same unquoted
`datetime(now)` expression as `escalate_agent`. -/
def resolve_escalation (agent_id resolver : String) (table : List EscRow) :
    Except String (List EscRow) := do
  resolveColumn "now"
  pure (table.map (fun r =>
    if r.agent_id = agent_id ∧ r.resolved_at = none
    then { r with resolved_at := some "now", resolved_by := some resolver }
    else r))

end Sentinel

/-- A sample active kill incident for agent "apex", used to exercise the
resume path on concrete data. -/
def sampleKillIncident : Oversight.Incident :=
  { agent_id := "apex", incident_type := "kill", reason := "r",
    triggered_by := "manual", status := "active",
    context := { reason := "r", output := "o",
                 host := "agents@192.168.65.241", service := "apex" },
    resolved_by := none }

/-- A sample agents table where "apex" is in the killed state. -/
def sampleAgentsKilled : List (String × String) := [("apex", "killed")]

/-- A configured maintenance window 10:00-10:30 UTC on Mondays. -/
def c5Window : Sentinel.MaintenanceWindow :=
  { start_time := "10:00", duration_minutes := 30,
    days_of_week := ["mon"], active := true }

/-- Monday 10:15 UTC, inside `c5Window`. -/
def c5Now : Sentinel.UtcNow := { dayAbbr := "mon", hour := 10, minute := 15 }

/-- A `check_and_restart` environment at 10:15 UTC where every gate other
than maintenance would let the restart through: "apex" is degraded with
three consecutive missed heartbeats, its process is dead, and no restart
was attempted in the last hour. -/
def c5Env : Oversight.RestartEnv :=
  { agents := [("apex", "degraded")], incidents := [],
    heartbeats := ["timeout", "timeout", "timeout"], nowHour := 10,
    processAlive := false, restartCount := 0, restartRes := (true, "ok"),
    healthOk := true }

/-- The same environment at 03:00 UTC, inside the hard-coded
03:00-04:00 maintenance window of auto_restart.py. -/
def c5MaintEnv : Oversight.RestartEnv := { c5Env with nowHour := 3 }

/-- A `check_and_restart` environment where the agent is down (three
missed heartbeats, process dead) but three restart attempts were already
recorded in the trailing hour. -/
def c8Env : Oversight.RestartEnv :=
  { agents := [("apex", "degraded")], incidents := [],
    heartbeats := ["timeout", "timeout", "timeout"], nowHour := 12,
    processAlive := false, restartCount := 3, restartRes := (true, "ok"),
    healthOk := true }

/-- The 30-minute maintenance window starting 23:45 UTC on Mondays used in
the specification's midnight-crossing example. -/
def c9Window : Sentinel.MaintenanceWindow :=
  { start_time := "23:45", duration_minutes := 30,
    days_of_week := ["mon"], active := true }

/-- C1: killing the oversight engine's own agent id "sentinel" always fails
with a safety error: no stop command is executed, no incident is created,
and no agent status is updated, for every reason and triggeredBy value. -/
theorem C1_self_kill_always_rejected
    (reason triggered_by : String) (agents : List (String × String))
    (incidents : List Oversight.Incident) (stopRes : Bool × String) :
    (Oversight.kill_agent "sentinel" reason triggered_by agents incidents stopRes).success = false ∧
    (Oversight.kill_agent "sentinel" reason triggered_by agents incidents stopRes).error =
      some "SAFETY: Sentinel cannot kill itself" ∧
    (Oversight.kill_agent "sentinel" reason triggered_by agents incidents stopRes).executedCmds = [] ∧
    (Oversight.kill_agent "sentinel" reason triggered_by agents incidents stopRes).incidents = incidents ∧
    (Oversight.kill_agent "sentinel" reason triggered_by agents incidents stopRes).agents = agents := by
  refine ⟨rfl, rfl, rfl, rfl, rfl⟩

/-- C2 counterexample: "sentinel" is a protected agent, and the auto-kill
attempt against it does fail, but NO notification describing the block is
sent — the self-preservation check fires first and returns silently, so
the claim's "a notification describing the block is sent" is false for
this protected agent. -/
theorem C2_counterexample_sentinel_blocked_silently :
    "sentinel" ∈ Oversight.PROTECTED_AGENTS ∧
    (Oversight.kill_agent "sentinel" "high error rate" "auto"
      [("sentinel", "healthy")] [] (true, "")).success = false ∧
    (Oversight.kill_agent "sentinel" "high error rate" "auto"
      [("sentinel", "healthy")] [] (true, "")).notifications = [] := by
  refine ⟨by decide, rfl, rfl⟩

/-- C2 (amended): for every protected agent other than "sentinel" itself
(only "david-bishop"), an auto-triggered kill fails without executing the
stop command or changing any table, and the block notification is sent;
and a kill with the explicit human actor "ceo-approved" is not rejected by
the protected-agent check and proceeds to the stop command. -/
theorem C2_protected_auto_blocked_and_notified
    (agent reason : String) (agents : List (String × String))
    (incidents : List Oversight.Incident) (stopRes : Bool × String)
    (hmem : agent ∈ Oversight.PROTECTED_AGENTS) (hself : agent ≠ "sentinel") :
    ((Oversight.kill_agent agent reason "auto" agents incidents stopRes).success = false ∧
     (Oversight.kill_agent agent reason "auto" agents incidents stopRes).executedCmds = [] ∧
     (Oversight.kill_agent agent reason "auto" agents incidents stopRes).agents = agents ∧
     (Oversight.kill_agent agent reason "auto" agents incidents stopRes).incidents = incidents ∧
     (Oversight.kill_agent agent reason "auto" agents incidents stopRes).notifications =
       [("[SENTINEL] Kill Request Blocked: " ++ agent,
         "Auto-kill of " ++ agent ++ " was blocked.\nReason: " ++ reason ++
         "\n\nCEO approval required.")]) ∧
    ((Oversight.kill_agent agent reason "ceo-approved" agents incidents stopRes).error ≠
       some ("SAFETY: " ++ agent ++ " is protected - requires CEO pre-approval") ∧
     (Oversight.kill_agent agent reason "ceo-approved" agents incidents stopRes).executedCmds ≠ []) := by
  have h : agent = "david-bishop" := by
    have h2 : agent = "david-bishop" ∨ agent = "sentinel" := by
      simpa [Oversight.PROTECTED_AGENTS] using hmem
    rcases h2 with h | h
    · exact h
    · exact absurd h hself
  subst h
  exact ⟨⟨rfl, rfl, rfl, rfl, rfl⟩,
    fun hc => Option.noConfusion hc, fun hc => List.noConfusion hc⟩

/-- Witness for C2: the amended theorem applied to agent "david-bishop". -/
theorem C2_witness_david_bishop :
    ("david-bishop" ∈ Oversight.PROTECTED_AGENTS ∧ "david-bishop" ≠ "sentinel") ∧
    (((Oversight.kill_agent "david-bishop" "r" "auto"
        [("david-bishop", "healthy")] [] (true, "out")).success = false ∧
      (Oversight.kill_agent "david-bishop" "r" "auto"
        [("david-bishop", "healthy")] [] (true, "out")).executedCmds = [] ∧
      (Oversight.kill_agent "david-bishop" "r" "auto"
        [("david-bishop", "healthy")] [] (true, "out")).agents = [("david-bishop", "healthy")] ∧
      (Oversight.kill_agent "david-bishop" "r" "auto"
        [("david-bishop", "healthy")] [] (true, "out")).incidents = [] ∧
      (Oversight.kill_agent "david-bishop" "r" "auto"
        [("david-bishop", "healthy")] [] (true, "out")).notifications =
        [("[SENTINEL] Kill Request Blocked: " ++ "david-bishop",
          "Auto-kill of " ++ "david-bishop" ++ " was blocked.\nReason: " ++ "r" ++
          "\n\nCEO approval required.")]) ∧
     ((Oversight.kill_agent "david-bishop" "r" "ceo-approved"
        [("david-bishop", "healthy")] [] (true, "out")).error ≠
        some ("SAFETY: " ++ "david-bishop" ++ " is protected - requires CEO pre-approval") ∧
      (Oversight.kill_agent "david-bishop" "r" "ceo-approved"
        [("david-bishop", "healthy")] [] (true, "out")).executedCmds ≠ [])) :=
  ⟨⟨by decide, by decide⟩,
   C2_protected_auto_blocked_and_notified "david-bishop" "r"
     [("david-bishop", "healthy")] [] (true, "out") (by decide) (by decide)⟩

/-- C3: when both safety invariants pass and the agent has a known host and
service, the kill operation — whether or not the remote stop succeeds —
creates a "kill" incident in "active" status recording reason, actor and
command output, sets the agent's status to "killed", sends a notification,
executes exactly the stop command, and returns success iff the remote stop
command succeeded. -/
theorem C3_kill_records_incident_and_status
    (agent_id reason triggered_by host service : String)
    (agents : List (String × String)) (incidents : List Oversight.Incident)
    (stopRes : Bool × String)
    (hself : agent_id ≠ "sentinel")
    (hprot : ¬(agent_id ∈ Oversight.PROTECTED_AGENTS ∧ triggered_by = "auto"))
    (hh : Oversight.lookup Oversight.AGENT_HOSTS agent_id = some host)
    (hs : Oversight.lookup Oversight.AGENT_SERVICES agent_id = some service) :
    (Oversight.kill_agent agent_id reason triggered_by agents incidents stopRes).incidents =
      incidents ++
        [{ agent_id := agent_id, incident_type := "kill", reason := reason,
           triggered_by := triggered_by, status := "active",
           context := { reason := reason, output := stopRes.2.take 500,
                        host := host, service := service },
           resolved_by := none }] ∧
    (Oversight.kill_agent agent_id reason triggered_by agents incidents stopRes).agents =
      Oversight.updateStatus agents agent_id "killed" ∧
    (Oversight.kill_agent agent_id reason triggered_by agents incidents stopRes).notifications =
      [("[SENTINEL] Agent Killed: " ++ agent_id,
        "Agent " ++ agent_id ++ " has been killed.\nReason: " ++ reason ++
        "\nTriggered by: " ++ triggered_by ++
        "\n\nUse POST /api/kill-switch/" ++ agent_id ++ "/resume to restart.")] ∧
    (Oversight.kill_agent agent_id reason triggered_by agents incidents stopRes).executedCmds =
      [(host, Oversight.stopCmd agent_id service)] ∧
    (Oversight.kill_agent agent_id reason triggered_by agents incidents stopRes).success =
      stopRes.1 := by
  simp only [Oversight.kill_agent, if_neg hself, if_neg hprot, hh, hs]
  simp

/-- Witness for C3: killing "apex" manually with a successful stop. -/
theorem C3_witness_apex :
    ("apex" ≠ "sentinel" ∧
     ¬("apex" ∈ Oversight.PROTECTED_AGENTS ∧ "manual" = "auto") ∧
     Oversight.lookup Oversight.AGENT_HOSTS "apex" = some "agents@192.168.65.241" ∧
     Oversight.lookup Oversight.AGENT_SERVICES "apex" = some "apex") ∧
    ((Oversight.kill_agent "apex" "r" "manual" [("apex", "healthy")] [] (true, "stopped")).incidents =
      [] ++
        [{ agent_id := "apex", incident_type := "kill", reason := "r",
           triggered_by := "manual", status := "active",
           context := { reason := "r", output := (true, "stopped").2.take 500,
                        host := "agents@192.168.65.241", service := "apex" },
           resolved_by := none }] ∧
     (Oversight.kill_agent "apex" "r" "manual" [("apex", "healthy")] [] (true, "stopped")).agents =
      Oversight.updateStatus [("apex", "healthy")] "apex" "killed" ∧
     (Oversight.kill_agent "apex" "r" "manual" [("apex", "healthy")] [] (true, "stopped")).notifications =
      [("[SENTINEL] Agent Killed: " ++ "apex",
        "Agent " ++ "apex" ++ " has been killed.\nReason: " ++ "r" ++
        "\nTriggered by: " ++ "manual" ++
        "\n\nUse POST /api/kill-switch/" ++ "apex" ++ "/resume to restart.")] ∧
     (Oversight.kill_agent "apex" "r" "manual" [("apex", "healthy")] [] (true, "stopped")).executedCmds =
      [("agents@192.168.65.241", Oversight.stopCmd "apex" "apex")] ∧
     (Oversight.kill_agent "apex" "r" "manual" [("apex", "healthy")] [] (true, "stopped")).success =
      (true, "stopped").1) :=
  ⟨⟨by decide, by decide, by decide, by decide⟩,
   C3_kill_records_incident_and_status "apex" "r" "manual"
     "agents@192.168.65.241" "apex" [("apex", "healthy")] [] (true, "stopped")
     (by decide) (by decide) (by decide) (by decide)⟩

/-- C10 counterexample: "sentinel" is protected and "AUTO" differs from
"auto", yet the kill does NOT proceed to the remote stop, incident
creation, or status change — the self-preservation check rejects it
first. -/
theorem C10_counterexample_sentinel_nonauto :
    "sentinel" ∈ Oversight.PROTECTED_AGENTS ∧ "AUTO" ≠ "auto" ∧
    (Oversight.kill_agent "sentinel" "r" "AUTO"
      [("sentinel", "healthy")] [] (true, "")).executedCmds = [] ∧
    (Oversight.kill_agent "sentinel" "r" "AUTO"
      [("sentinel", "healthy")] [] (true, "")).incidents = [] ∧
    (Oversight.kill_agent "sentinel" "r" "AUTO"
      [("sentinel", "healthy")] [] (true, "")).agents = [("sentinel", "healthy")] := by
  refine ⟨by decide, by decide, rfl, rfl, rfl⟩

/-- C10 (amended): the protected-agent guard is an exact string comparison
with "auto": for every protected agent that also passes the
self-preservation check (i.e. is not "sentinel") and has a known host and
service, every other triggeredBy value — "AUTO", "automatic", "auto ",
"" — is not rejected by the protected check, and the kill proceeds to the
remote stop, incident creation, and status change. -/
theorem C10_nonauto_trigger_passes_protected_guard
    (agent_id reason triggered_by host service : String)
    (agents : List (String × String)) (incidents : List Oversight.Incident)
    (stopRes : Bool × String)
    (_hmem : agent_id ∈ Oversight.PROTECTED_AGENTS)
    (hself : agent_id ≠ "sentinel")
    (htb : triggered_by ≠ "auto")
    (hh : Oversight.lookup Oversight.AGENT_HOSTS agent_id = some host)
    (hs : Oversight.lookup Oversight.AGENT_SERVICES agent_id = some service) :
    (Oversight.kill_agent agent_id reason triggered_by agents incidents stopRes).error ≠
      some ("SAFETY: " ++ agent_id ++ " is protected - requires CEO pre-approval") ∧
    (Oversight.kill_agent agent_id reason triggered_by agents incidents stopRes).executedCmds =
      [(host, Oversight.stopCmd agent_id service)] ∧
    (Oversight.kill_agent agent_id reason triggered_by agents incidents stopRes).incidents =
      incidents ++
        [{ agent_id := agent_id, incident_type := "kill", reason := reason,
           triggered_by := triggered_by, status := "active",
           context := { reason := reason, output := stopRes.2.take 500,
                        host := host, service := service },
           resolved_by := none }] ∧
    (Oversight.kill_agent agent_id reason triggered_by agents incidents stopRes).agents =
      Oversight.updateStatus agents agent_id "killed" := by
  have hprot : ¬(agent_id ∈ Oversight.PROTECTED_AGENTS ∧ triggered_by = "auto") :=
    fun hc => htb hc.2
  simp only [Oversight.kill_agent, if_neg hself, if_neg hprot, hh, hs]
  simp

/-- Witness for C10: protected "david-bishop" with triggeredBy "AUTO"
proceeds to the stop. -/
theorem C10_witness_david_bishop_AUTO :
    ("david-bishop" ∈ Oversight.PROTECTED_AGENTS ∧ "david-bishop" ≠ "sentinel" ∧
     "AUTO" ≠ "auto" ∧
     Oversight.lookup Oversight.AGENT_HOSTS "david-bishop" = some "agents@192.168.65.241" ∧
     Oversight.lookup Oversight.AGENT_SERVICES "david-bishop" = some "openclaw-gateway") ∧
    ((Oversight.kill_agent "david-bishop" "r" "AUTO"
        [("david-bishop", "healthy")] [] (false, "err")).error ≠
      some ("SAFETY: " ++ "david-bishop" ++ " is protected - requires CEO pre-approval") ∧
     (Oversight.kill_agent "david-bishop" "r" "AUTO"
        [("david-bishop", "healthy")] [] (false, "err")).executedCmds =
      [("agents@192.168.65.241", Oversight.stopCmd "david-bishop" "openclaw-gateway")] ∧
     (Oversight.kill_agent "david-bishop" "r" "AUTO"
        [("david-bishop", "healthy")] [] (false, "err")).incidents =
      [] ++
        [{ agent_id := "david-bishop", incident_type := "kill", reason := "r",
           triggered_by := "AUTO", status := "active",
           context := { reason := "r", output := (false, "err").2.take 500,
                        host := "agents@192.168.65.241", service := "openclaw-gateway" },
           resolved_by := none }] ∧
     (Oversight.kill_agent "david-bishop" "r" "AUTO"
        [("david-bishop", "healthy")] [] (false, "err")).agents =
      Oversight.updateStatus [("david-bishop", "healthy")] "david-bishop" "killed") :=
  ⟨⟨by decide, by decide, by decide, by decide, by decide⟩,
   C10_nonauto_trigger_passes_protected_guard "david-bishop" "r" "AUTO"
     "agents@192.168.65.241" "openclaw-gateway" [("david-bishop", "healthy")] []
     (false, "err") (by decide) (by decide) (by decide) (by decide) (by decide)⟩

/-- C4: resume fails with a state-mismatch error and changes nothing when
the agent's status is not "killed"; when the status is "killed" and the
remote start succeeds, the status becomes "healthy" and every active
"kill" incident of the agent (in particular the most recent) is resolved
with approvedBy as resolver; when the start fails, the status stays
"killed" and no incident is mutated. -/
theorem C4_resume_state_machine
    (agent_id approved_by st host service : String)
    (agents : List (String × String)) (incidents : List Oversight.Incident)
    (startRes : Bool × String)
    (hst : Oversight.lookup agents agent_id = some st)
    (hh : Oversight.lookup Oversight.AGENT_HOSTS agent_id = some host)
    (hs : Oversight.lookup Oversight.AGENT_SERVICES agent_id = some service) :
    (st ≠ "killed" →
      (Oversight.resume_agent agent_id approved_by agents incidents startRes).error =
        some ("Agent " ++ agent_id ++ " is not in killed state (current: " ++ st ++ ")") ∧
      (Oversight.resume_agent agent_id approved_by agents incidents startRes).success = false ∧
      (Oversight.resume_agent agent_id approved_by agents incidents startRes).agents = agents ∧
      (Oversight.resume_agent agent_id approved_by agents incidents startRes).incidents = incidents ∧
      (Oversight.resume_agent agent_id approved_by agents incidents startRes).executedCmds = []) ∧
    (st = "killed" → startRes.1 = true →
      (Oversight.resume_agent agent_id approved_by agents incidents startRes).success = true ∧
      (Oversight.resume_agent agent_id approved_by agents incidents startRes).agents =
        Oversight.updateStatus agents agent_id "healthy" ∧
      (Oversight.resume_agent agent_id approved_by agents incidents startRes).incidents.length =
        incidents.length ∧
      (∀ i ∈ incidents, i.agent_id = agent_id → i.status = "active" →
        i.incident_type = "kill" →
        { i with status := "resolved", resolved_by := some approved_by } ∈
          (Oversight.resume_agent agent_id approved_by agents incidents startRes).incidents) ∧
      (∀ i ∈ incidents,
        ¬(i.agent_id = agent_id ∧ i.status = "active" ∧ i.incident_type = "kill") →
        i ∈ (Oversight.resume_agent agent_id approved_by agents incidents startRes).incidents)) ∧
    (st = "killed" → startRes.1 = false →
      (Oversight.resume_agent agent_id approved_by agents incidents startRes).success = false ∧
      (Oversight.resume_agent agent_id approved_by agents incidents startRes).agents = agents ∧
      (Oversight.resume_agent agent_id approved_by agents incidents startRes).incidents = incidents ∧
      (Oversight.resume_agent agent_id approved_by agents incidents startRes).error =
        some (startRes.2.take 200)) := by
  refine ⟨fun hne => ?_, fun hk hsucc => ?_, fun hk hfail => ?_⟩
  · have ho : Oversight.resume_agent agent_id approved_by agents incidents startRes =
        { success := false,
          error := some ("Agent " ++ agent_id ++ " is not in killed state (current: " ++ st ++ ")"),
          executedCmds := [], agents := agents, incidents := incidents } := by
      simp only [Oversight.resume_agent, hst]
      rw [if_pos hne]
    rw [ho]
    exact ⟨rfl, rfl, rfl, rfl, rfl⟩
  · subst hk
    have ho : Oversight.resume_agent agent_id approved_by agents incidents startRes =
        { success := true, error := none,
          executedCmds := [(host, Oversight.startCmd agent_id service)],
          agents := Oversight.updateStatus agents agent_id "healthy",
          incidents := Oversight.resolveKillIncidents incidents agent_id approved_by } := by
      simp only [Oversight.resume_agent, hst, hh, hs]
      rw [if_neg (by decide : ¬("killed" ≠ "killed"))]
      rw [if_pos hsucc]
    rw [ho]
    refine ⟨rfl, rfl, ?_, fun i hi h1 h2 h3 => ?_, fun i hi hnot => ?_⟩
    · simp [Oversight.resolveKillIncidents]
    · simp only [Oversight.resolveKillIncidents, List.mem_map]
      exact ⟨i, hi, by rw [if_pos ⟨h1, h2, h3⟩]⟩
    · simp only [Oversight.resolveKillIncidents, List.mem_map]
      exact ⟨i, hi, by rw [if_neg hnot]⟩
  · subst hk
    have ho : Oversight.resume_agent agent_id approved_by agents incidents startRes =
        { success := false, error := some (startRes.2.take 200),
          executedCmds := [(host, Oversight.startCmd agent_id service)],
          agents := agents, incidents := incidents } := by
      simp only [Oversight.resume_agent, hst, hh, hs]
      rw [if_neg (by decide : ¬("killed" ≠ "killed"))]
      rw [if_neg (by simp [hfail])]
    rw [ho]
    exact ⟨rfl, rfl, rfl, rfl⟩

/-- Witness for C4: resuming the killed agent "apex" with a successful
start command. -/
theorem C4_witness_apex_resume :
    (Oversight.lookup sampleAgentsKilled "apex" = some "killed" ∧
     Oversight.lookup Oversight.AGENT_HOSTS "apex" = some "agents@192.168.65.241" ∧
     Oversight.lookup Oversight.AGENT_SERVICES "apex" = some "apex") ∧
    (("killed" : String) ≠ "killed" →
      (Oversight.resume_agent "apex" "ceo" sampleAgentsKilled [sampleKillIncident] (true, "started")).error =
        some ("Agent " ++ "apex" ++ " is not in killed state (current: " ++ "killed" ++ ")") ∧
      (Oversight.resume_agent "apex" "ceo" sampleAgentsKilled [sampleKillIncident] (true, "started")).success = false ∧
      (Oversight.resume_agent "apex" "ceo" sampleAgentsKilled [sampleKillIncident] (true, "started")).agents = sampleAgentsKilled ∧
      (Oversight.resume_agent "apex" "ceo" sampleAgentsKilled [sampleKillIncident] (true, "started")).incidents = [sampleKillIncident] ∧
      (Oversight.resume_agent "apex" "ceo" sampleAgentsKilled [sampleKillIncident] (true, "started")).executedCmds = []) ∧
    (("killed" : String) = "killed" → (true, "started").1 = true →
      (Oversight.resume_agent "apex" "ceo" sampleAgentsKilled [sampleKillIncident] (true, "started")).success = true ∧
      (Oversight.resume_agent "apex" "ceo" sampleAgentsKilled [sampleKillIncident] (true, "started")).agents =
        Oversight.updateStatus sampleAgentsKilled "apex" "healthy" ∧
      (Oversight.resume_agent "apex" "ceo" sampleAgentsKilled [sampleKillIncident] (true, "started")).incidents.length =
        [sampleKillIncident].length ∧
      (∀ i ∈ [sampleKillIncident], i.agent_id = "apex" → i.status = "active" →
        i.incident_type = "kill" →
        { i with status := "resolved", resolved_by := some "ceo" } ∈
          (Oversight.resume_agent "apex" "ceo" sampleAgentsKilled [sampleKillIncident] (true, "started")).incidents) ∧
      (∀ i ∈ [sampleKillIncident],
        ¬(i.agent_id = "apex" ∧ i.status = "active" ∧ i.incident_type = "kill") →
        i ∈ (Oversight.resume_agent "apex" "ceo" sampleAgentsKilled [sampleKillIncident] (true, "started")).incidents)) ∧
    (("killed" : String) = "killed" → (true, "started").1 = false →
      (Oversight.resume_agent "apex" "ceo" sampleAgentsKilled [sampleKillIncident] (true, "started")).success = false ∧
      (Oversight.resume_agent "apex" "ceo" sampleAgentsKilled [sampleKillIncident] (true, "started")).agents = sampleAgentsKilled ∧
      (Oversight.resume_agent "apex" "ceo" sampleAgentsKilled [sampleKillIncident] (true, "started")).incidents = [sampleKillIncident] ∧
      (Oversight.resume_agent "apex" "ceo" sampleAgentsKilled [sampleKillIncident] (true, "started")).error =
        some ((true, "started").2.take 200)) :=
  ⟨⟨by decide, by decide, by decide⟩,
   C4_resume_state_machine "apex" "ceo" "killed" "agents@192.168.65.241" "apex"
     sampleAgentsKilled [sampleKillIncident] (true, "started")
     (by decide) (by decide) (by decide)⟩

/-- C5 counterexample: the configured maintenance window 10:00-10:30 on
Monday contains the current time Monday 10:15 (the configured predicate
`is_maintenance_active` returns true), yet `check_and_restart` does not
skip — it issues the remote restart command, because its maintenance gate
consults only the hard-coded 03:00-04:00 UTC hours. -/
theorem C5_counterexample_configured_window_ignored :
    Sentinel.is_maintenance_active (some c5Window) c5Now = true ∧
    c5Now.hour = c5Env.nowHour ∧
    (Oversight.check_and_restart "apex" c5Env).skipped = none ∧
    (Oversight.check_and_restart "apex" c5Env).action = "restart" ∧
    (Oversight.check_and_restart "apex" c5Env).executedCmds =
      [("agents@192.168.65.241", "sudo systemctl restart apex")] := by
  decide

/-- C5 (amended): the maintenance gate of `check_and_restart` is the
hard-coded 03:00-04:00 UTC window: whenever the current UTC hour lies in
it, no restart command is issued, nothing is logged to restart_log, the
action is never "restart", and — provided the agent exists and is not
killed — the result is skipped with reason "Maintenance window active". -/
theorem C5_fixed_window_blocks_restart (agent_id : String)
    (env : Oversight.RestartEnv)
    (h1 : Oversight.MAINTENANCE_START_HOUR ≤ env.nowHour)
    (h2 : env.nowHour < Oversight.MAINTENANCE_END_HOUR) :
    (Oversight.check_and_restart agent_id env).executedCmds = [] ∧
    (Oversight.check_and_restart agent_id env).restartLog = [] ∧
    (Oversight.check_and_restart agent_id env).action ≠ "restart" ∧
    (∀ st, Oversight.lookup env.agents agent_id = some st → st ≠ "killed" →
      (Oversight.check_and_restart agent_id env).skipped =
        some "Maintenance window active") := by
  have hm : Oversight.is_maintenance_window env.nowHour = true := by
    simp only [Oversight.is_maintenance_window, decide_eq_true_eq]
    exact ⟨h1, h2⟩
  cases hl : Oversight.lookup env.agents agent_id with
  | none =>
    refine ⟨?_, ?_, ?_, fun st hst _ => ?_⟩ <;>
      simp_all [Oversight.check_and_restart]
  | some st =>
    by_cases hk : st = "killed"
    · subst hk
      refine ⟨?_, ?_, ?_, fun st' hst' hne' => ?_⟩ <;>
        simp_all [Oversight.check_and_restart]
    · refine ⟨?_, ?_, ?_, fun st' hst' hne' => ?_⟩ <;>
        simp_all [Oversight.check_and_restart, hm]

/-- Witness for C5: at 03:00 UTC the restart of "apex" is suppressed even
though every other gate would pass. -/
theorem C5_witness_three_utc :
    (Oversight.MAINTENANCE_START_HOUR ≤ c5MaintEnv.nowHour ∧
     c5MaintEnv.nowHour < Oversight.MAINTENANCE_END_HOUR) ∧
    ((Oversight.check_and_restart "apex" c5MaintEnv).executedCmds = [] ∧
     (Oversight.check_and_restart "apex" c5MaintEnv).restartLog = [] ∧
     (Oversight.check_and_restart "apex" c5MaintEnv).action ≠ "restart" ∧
     (∀ st, Oversight.lookup c5MaintEnv.agents "apex" = some st → st ≠ "killed" →
       (Oversight.check_and_restart "apex" c5MaintEnv).skipped =
         some "Maintenance window active")) :=
  ⟨⟨by decide, by decide⟩,
   C5_fixed_window_blocks_restart "apex" c5MaintEnv (by decide) (by decide)⟩

/-- The scanning loop of `_get_missed_heartbeat_count` counts exactly the
longest all-non-"healthy" prefix. -/
theorem countConsecMissed_eq_takeWhile (l : List String) :
    Oversight.countConsecMissed l =
      (l.takeWhile (fun s => decide (s ≠ "healthy"))).length := by
  induction l with
  | nil => rfl
  | cons a l ih =>
    by_cases h : a = "healthy"
    · subst h
      simp [Oversight.countConsecMissed, List.takeWhile_cons]
    · simp [Oversight.countConsecMissed, h, List.takeWhile_cons, ih]

/-- C6: the missed-beat count is computed over the most recent window of
at most 5 heartbeats (newest first) as the number of consecutive
non-"healthy" entries starting from the newest, stopping at the first
"healthy" one; an empty history yields the full window size 5. -/
theorem C6_missed_heartbeat_count (heartbeats : List String) :
    Oversight._get_missed_heartbeat_count heartbeats =
      if heartbeats = [] then 5
      else ((heartbeats.take 5).takeWhile (fun s => decide (s ≠ "healthy"))).length := by
  cases heartbeats with
  | nil => rfl
  | cons a l =>
    simp [Oversight._get_missed_heartbeat_count, countConsecMissed_eq_takeWhile]

/-- C7: as written, neither escalation-ladder operation can ever touch the
table: the UPDATE statements of `escalate_agent` and `resolve_escalation`
contain the unquoted identifiers `now` (and `system-auto`), which SQLite
fails to resolve as columns of agent_escalations, so every call raises
"no such column: now" and no escalation row is ever created or resolved. -/
theorem C7_escalation_ops_always_error
    (agent_id reason resolver : String) (level : Nat)
    (table : List Sentinel.EscRow) :
    Sentinel.escalate_agent agent_id level reason table =
      Except.error "no such column: now" ∧
    Sentinel.resolve_escalation agent_id resolver table =
      Except.error "no such column: now" :=
  ⟨rfl, rfl⟩

/-- C8 counterexample: with 3 recorded restart attempts in the trailing
hour, the check-and-restart operation emits "blocked" without issuing a
restart command and sends a notification — but it records NO incident:
the incidents table stays empty, refuting "records an Incident with
status active". -/
theorem C8_counterexample_no_incident_on_block :
    (Oversight.check_and_restart "apex" c8Env).action = "blocked" ∧
    (Oversight.check_and_restart "apex" c8Env).executedCmds = [] ∧
    (Oversight.check_and_restart "apex" c8Env).notifications =
      [("[SENTINEL] Restart Limit: apex",
        "Agent apex has been restarted 3 times in the last hour.\nManual intervention required.")] ∧
    c8Env.incidents = [] ∧
    (Oversight.check_and_restart "apex" c8Env).incidents = [] := by
  decide

/-- C8 (amended): when all earlier gates pass but 3 or more restart
attempts are recorded for the agent in the trailing window, the
check-and-restart operation emits a "blocked" result with the
rate-limit error, issues no restart command, logs no restart attempt,
sends a notification — and leaves the incidents and agents tables
unchanged (no Incident is recorded). -/
theorem C8_rate_limit_blocks_without_incident
    (agent_id st : String) (env : Oversight.RestartEnv)
    (hst : Oversight.lookup env.agents agent_id = some st)
    (hk : st ≠ "killed")
    (hmw : Oversight.is_maintenance_window env.nowHour = false)
    (hmissed : Oversight.MISSED_HEARTBEATS_THRESHOLD ≤
      Oversight._get_missed_heartbeat_count env.heartbeats)
    (halive : env.processAlive = false)
    (hrate : Oversight.MAX_RESTARTS_PER_HOUR ≤ env.restartCount) :
    (Oversight.check_and_restart agent_id env).action = "blocked" ∧
    (Oversight.check_and_restart agent_id env).error =
      some "Max restarts (3) reached in last hour" ∧
    (Oversight.check_and_restart agent_id env).executedCmds = [] ∧
    (Oversight.check_and_restart agent_id env).restartLog = [] ∧
    (Oversight.check_and_restart agent_id env).incidents = env.incidents ∧
    (Oversight.check_and_restart agent_id env).agents = env.agents ∧
    (Oversight.check_and_restart agent_id env).notifications =
      [("[SENTINEL] Restart Limit: " ++ agent_id,
        "Agent " ++ agent_id ++ " has been restarted " ++
        toString env.restartCount ++
        " times in the last hour.\nManual intervention required.")] := by
  have hnotlt : ¬(Oversight._get_missed_heartbeat_count env.heartbeats <
      Oversight.MISSED_HEARTBEATS_THRESHOLD) := Nat.not_lt.mpr hmissed
  simp only [Oversight.check_and_restart, hst]
  rw [if_neg hk, hmw, if_neg Bool.false_ne_true, if_neg hnotlt, halive,
    if_neg Bool.false_ne_true, if_pos hrate]
  exact ⟨rfl, rfl, rfl, rfl, rfl, rfl, rfl⟩

/-- Witness for C8: a fourth restart attempt for "apex" after three
recorded attempts is blocked, notified, and records no incident. -/
theorem C8_witness_apex_blocked :
    (Oversight.lookup c8Env.agents "apex" = some "degraded" ∧
     ("degraded" : String) ≠ "killed" ∧
     Oversight.is_maintenance_window c8Env.nowHour = false ∧
     Oversight.MISSED_HEARTBEATS_THRESHOLD ≤
       Oversight._get_missed_heartbeat_count c8Env.heartbeats ∧
     c8Env.processAlive = false ∧
     Oversight.MAX_RESTARTS_PER_HOUR ≤ c8Env.restartCount) ∧
    ((Oversight.check_and_restart "apex" c8Env).action = "blocked" ∧
     (Oversight.check_and_restart "apex" c8Env).error =
       some "Max restarts (3) reached in last hour" ∧
     (Oversight.check_and_restart "apex" c8Env).executedCmds = [] ∧
     (Oversight.check_and_restart "apex" c8Env).restartLog = [] ∧
     (Oversight.check_and_restart "apex" c8Env).incidents = c8Env.incidents ∧
     (Oversight.check_and_restart "apex" c8Env).agents = c8Env.agents ∧
     (Oversight.check_and_restart "apex" c8Env).notifications =
       [("[SENTINEL] Restart Limit: " ++ "apex",
         "Agent " ++ "apex" ++ " has been restarted " ++
         toString c8Env.restartCount ++
         " times in the last hour.\nManual intervention required.")]) :=
  ⟨⟨by decide, by decide, by decide, by decide, by decide, by decide⟩,
   C8_rate_limit_blocks_without_incident "apex" "degraded" c8Env
     (by decide) (by decide) (by decide) (by decide) (by decide) (by decide)⟩

/-- C9: the window-end computation of `is_maintenance_active` drops the
carry of the minute sum into the hour, so the 30-minute window starting
23:45 is treated as the interval 23:45 → 23:15: the predicate wrongly
returns true at Monday 22:00 (which the spec model places outside the
window), while correctly returning true at 00:10 (inside). -/
theorem C9_minute_carry_failing_input :
    Sentinel.is_maintenance_active (some c9Window)
      { dayAbbr := "mon", hour := 22, minute := 0 } = true ∧
    Sentinel.inWindowSpecModel c9Window
      { dayAbbr := "mon", hour := 22, minute := 0 } = false ∧
    Sentinel.is_maintenance_active (some c9Window)
      { dayAbbr := "mon", hour := 0, minute := 10 } = true ∧
    Sentinel.inWindowSpecModel c9Window
      { dayAbbr := "mon", hour := 0, minute := 10 } = true := by
  decide
